import Mathlib

/-!
Verification development for the execnet gateway core
(`src/execnet/gateway_base.py`): a shallow embedding of the
cross-interpreter value codec (`Serializer` / `Unserializer`), of the
`Channel` / `ChannelFactory` state machine, and of the channel-id
allocator, together with theorems settling the specification claims.

Machine integers are modelled as `Nat` / `Int` with explicit range
checks exactly where the Python code has them; byte streams are
`List Nat`; fallible operations return `Except`.  Floats are modelled
as their 64-bit patterns (the bytes `struct.pack "!d"` emits), since
the codec only moves those bytes.  The embedded dialect is the Python 3
side (`ISPY3` true in the source).
-/

namespace Execnet

/-! ## Codec: values and protocol constants -/

/-- The value shapes accepted by the serializer (gateway_base.py
dispatch table): `None`, `bool`, `int`, `float` (as its IEEE-754 bit
pattern), `bytes`, `str` (as a list of unicode code points), `tuple`,
`list`, and `dict` (as an insertion-ordered association list). -/
inductive Value where
  | none : Value
  | bool (b : Bool) : Value
  | int (i : Int) : Value
  | float (bits : Nat) : Value
  | bytes (bs : List Nat) : Value
  | str (cps : List Nat) : Value
  | tup (elems : List Value) : Value
  | list (elems : List Value) : Value
  | dict (entries : List (Value × Value)) : Value
deriving Repr

/-- Errors the serializer can raise: `SerializationError` from the
explicit checks, and `struct.error` from `struct.pack "!i"` on an
integer below -2^31 (the code checks only the upper bound). -/
inductive SerErr where
  | serializationError : SerErr
  | structError : SerErr
deriving DecidableEq, Repr

def VERSION_NUMBER : Nat := 1
def NONE : Nat := 110
def PY2STRING : Nat := 115
def PY3STRING : Nat := 116
def UNICODE : Nat := 117
def BYTES : Nat := 98
def NEWLIST : Nat := 108
def BUILDTUPLE : Nat := 84
def SETITEM : Nat := 109
def NEWDICT : Nat := 100
def INT : Nat := 105
def FLOAT : Nat := 102
def TRUE : Nat := 49
def FALSE : Nat := 48
def STOP : Nat := 83

def FOUR_BYTE_INT_MAX : Int := 2147483647

/-! ## Codec: encoder (`Serializer`) -/

/-- The four big-endian bytes of `struct.pack "!i" i` (two's
complement). -/
def int4Bytes (i : Int) : List Nat :=
  let u := (i % (2 ^ 32 : Int)).toNat
  [u / 2 ^ 24 % 256, u / 2 ^ 16 % 256, u / 2 ^ 8 % 256, u % 256]

/-- `Serializer._write_int4`: reject integers above `FOUR_BYTE_INT_MAX`
with `SerializationError`; below -2^31, `struct.pack` itself raises. -/
def write_int4 (i : Int) : Except SerErr (List Nat) :=
  if FOUR_BYTE_INT_MAX < i then Except.error SerErr.serializationError
  else if i < -(2 ^ 31 : Int) then Except.error SerErr.structError
  else Except.ok (int4Bytes i)

/-- `Serializer._write_byte_sequence`: 4-byte length then the raw
bytes. -/
def write_byte_sequence (bs : List Nat) : Except SerErr (List Nat) :=
  match write_int4 (Int.ofNat bs.length) with
  | Except.error e => Except.error e
  | Except.ok lenb => Except.ok (lenb ++ bs)

/-- A code point Python's UTF-8 encoder accepts (no surrogates, below
0x110000). -/
def validCp (c : Nat) : Bool :=
  decide (c < 1114112) && !(decide (55296 ≤ c) && decide (c < 57344))

/-- UTF-8 bytes of one code point. -/
def utf8Char (c : Nat) : List Nat :=
  if c < 128 then [c]
  else if c < 2048 then [192 + c / 64, 128 + c % 64]
  else if c < 65536 then [224 + c / 4096, 128 + c / 64 % 64, 128 + c % 64]
  else [240 + c / 262144, 128 + c / 4096 % 64, 128 + c / 64 % 64, 128 + c % 64]

/-- `s.encode("utf-8")` on the code-point list. -/
def utf8Encode (cps : List Nat) : List Nat :=
  (cps.map utf8Char).flatten

/-- `Serializer._write_unicode_string`: a `UnicodeEncodeError` becomes
`SerializationError`; otherwise the UTF-8 bytes go out as a byte
sequence. -/
def write_unicode_string (cps : List Nat) : Except SerErr (List Nat) :=
  if cps.all validCp then write_byte_sequence (utf8Encode cps)
  else Except.error SerErr.serializationError

/-- `Serializer.save_int` (opcode byte plus 4-byte payload). -/
def saveIntOp (i : Int) : Except SerErr (List Nat) :=
  match write_int4 i with
  | Except.error e => Except.error e
  | Except.ok bs => Except.ok (INT :: bs)

/-- The eight big-endian bytes of `struct.pack "!d"` on a float with
the given 64-bit pattern. -/
def float8Bytes (bits : Nat) : List Nat :=
  [bits / 2 ^ 56 % 256, bits / 2 ^ 48 % 256, bits / 2 ^ 40 % 256,
   bits / 2 ^ 32 % 256, bits / 2 ^ 24 % 256, bits / 2 ^ 16 % 256,
   bits / 2 ^ 8 % 256, bits % 256]

mutual

/-- `Serializer._save`: dispatch on the runtime type of the value. -/
def saveV : Value → Except SerErr (List Nat)
  | Value.none => Except.ok [NONE]
  | Value.bool b => Except.ok [if b then TRUE else FALSE]
  | Value.int i => saveIntOp i
  | Value.float bits => Except.ok (FLOAT :: float8Bytes bits)
  | Value.bytes bs =>
      match write_byte_sequence bs with
      | Except.error e => Except.error e
      | Except.ok out => Except.ok (BYTES :: out)
  | Value.str cps =>
      match write_unicode_string cps with
      | Except.error e => Except.error e
      | Except.ok out => Except.ok (PY3STRING :: out)
  | Value.list L =>
      match write_int4 (Int.ofNat L.length) with
      | Except.error e => Except.error e
      | Except.ok lenb =>
          match saveItems 0 L with
          | Except.error e => Except.error e
          | Except.ok body => Except.ok (NEWLIST :: (lenb ++ body))
  | Value.tup t =>
      match saveSeq t with
      | Except.error e => Except.error e
      | Except.ok body =>
          match write_int4 (Int.ofNat t.length) with
          | Except.error e => Except.error e
          | Except.ok lenb => Except.ok (body ++ BUILDTUPLE :: lenb)
  | Value.dict d =>
      match savePairs d with
      | Except.error e => Except.error e
      | Except.ok body => Except.ok (NEWDICT :: body)

/-- `Serializer.save_list` body: for element `i`,
`_write_setitem(i, item)` saves the integer key, then the element,
then `SETITEM`. -/
def saveItems (i : Nat) : List Value → Except SerErr (List Nat)
  | [] => Except.ok []
  | v :: rest =>
      match saveIntOp (Int.ofNat i) with
      | Except.error e => Except.error e
      | Except.ok kb =>
          match saveV v with
          | Except.error e => Except.error e
          | Except.ok vb =>
              match saveItems (i + 1) rest with
              | Except.error e => Except.error e
              | Except.ok rb => Except.ok (kb ++ vb ++ SETITEM :: rb)

/-- `Serializer.save_tuple` body: the elements back to back. -/
def saveSeq : List Value → Except SerErr (List Nat)
  | [] => Except.ok []
  | v :: rest =>
      match saveV v with
      | Except.error e => Except.error e
      | Except.ok vb =>
          match saveSeq rest with
          | Except.error e => Except.error e
          | Except.ok rb => Except.ok (vb ++ rb)

/-- `Serializer.save_dict` body: `_write_setitem(key, value)` per
entry, in insertion order. -/
def savePairs : List (Value × Value) → Except SerErr (List Nat)
  | [] => Except.ok []
  | kv :: rest =>
      match saveV kv.fst with
      | Except.error e => Except.error e
      | Except.ok kb =>
          match saveV kv.snd with
          | Except.error e => Except.error e
          | Except.ok vb =>
              match savePairs rest with
              | Except.error e => Except.error e
              | Except.ok rb => Except.ok (kb ++ vb ++ SETITEM :: rb)

end

/-- `Serializer.save`: version byte, the value's opcodes, `STOP`. -/
def save (v : Value) : Except SerErr (List Nat) :=
  match saveV v with
  | Except.error e => Except.error e
  | Except.ok body => Except.ok (VERSION_NUMBER :: body ++ [STOP])

/-! ## Codec: decoder (`Unserializer`) -/

/-- The reasons the decoder raises `UnserializationError`. -/
inductive UReason where
  | versionMismatch : UReason
  | unknownOpcode : UReason
  | setitemUnderflow : UReason
  | stackResidue : UReason
deriving DecidableEq, Repr

/-- Errors the decoder can raise.  `UnserializationError` is one
constructor family; `EOFError` is the transport's end-of-stream error
(`read_exact` on a truncated stream); `TypeError` / `IndexError` /
`UnicodeDecodeError` come from the Python operations inside the
opcode handlers. -/
inductive LoadErr where
  | unserialization (r : UReason) : LoadErr
  | eofError : LoadErr
  | typeError : LoadErr
  | indexError : LoadErr
  | unicodeError : LoadErr
deriving DecidableEq, Repr

/-- Whether a `LoadErr` is an `UnserializationError`. -/
def isUnser : LoadErr → Bool
  | LoadErr.unserialization _ => true
  | _ => false

/-- `_Py3UnserializationOptions`. -/
structure UnserOpts where
  py2_strings_as_str : Bool

/-- The decoder's default options (`UnserializationOptions()`). -/
def defaultOpts : UnserOpts := ⟨false⟩

/-- `struct.unpack "!i"` of four big-endian bytes (signed). -/
def sInt32 (b0 b1 b2 b3 : Nat) : Int :=
  let u : Nat := b0 * 2 ^ 24 + b1 * 2 ^ 16 + b2 * 2 ^ 8 + b3
  if u < 2 ^ 31 then (u : Int) else (u : Int) - 2 ^ 32

/-- The 64-bit pattern of eight big-endian bytes
(`struct.unpack "!d"` keeps exactly these bits). -/
def nat64 (b0 b1 b2 b3 b4 b5 b6 b7 : Nat) : Nat :=
  ((((((b0 * 256 + b1) * 256 + b2) * 256 + b3) * 256 + b4) * 256 + b5)
    * 256 + b6) * 256 + b7

mutual

/-- Python hashability of a decoded value (dict keys must be
hashable; lists and dicts are not, tuples are iff their elements
are). -/
def hashable : Value → Bool
  | Value.list _ => false
  | Value.dict _ => false
  | Value.tup ts => hashableList ts
  | _ => true

def hashableList : List Value → Bool
  | [] => true
  | v :: rest => hashable v && hashableList rest

end

mutual

/-- Structural equality test on values (dict key comparison). -/
def valueBeq : Value → Value → Bool
  | Value.none, Value.none => true
  | Value.bool a, Value.bool b => a == b
  | Value.int a, Value.int b => a == b
  | Value.float a, Value.float b => a == b
  | Value.bytes a, Value.bytes b => a == b
  | Value.str a, Value.str b => a == b
  | Value.tup a, Value.tup b => valueListBeq a b
  | Value.list a, Value.list b => valueListBeq a b
  | Value.dict a, Value.dict b => valuePairsBeq a b
  | _, _ => false

def valueListBeq : List Value → List Value → Bool
  | [], [] => true
  | a :: as, b :: bs => valueBeq a b && valueListBeq as bs
  | _, _ => false

def valuePairsBeq : List (Value × Value) → List (Value × Value) → Bool
  | [], [] => true
  | a :: as, b :: bs =>
      (valueBeq a.fst b.fst && valueBeq a.snd b.snd) && valuePairsBeq as bs
  | _, _ => false

end

/-- Python list index semantics for `L[key] = value`: integers (and
booleans, which are integers) index, negatives from the end;
out-of-range is `IndexError`. -/
def pyKeyIndex : Value → Option Int
  | Value.int i => some i
  | Value.bool b => some (if b then 1 else 0)
  | _ => Option.none

/-- Assignment `L[i] = v` on a Python list. -/
def listAssign (L : List Value) (i : Int) (v : Value) :
    Except LoadErr (List Value) :=
  let n : Int := Int.ofNat L.length
  let j : Int := if i < 0 then i + n else i
  if 0 ≤ j ∧ j < n then Except.ok (L.set j.toNat v)
  else Except.error LoadErr.indexError

/-- Assignment `d[k] = v` on a Python dict: overwrite in place if the
key is present, else append. -/
def dictAssign (entries : List (Value × Value)) (k v : Value) :
    List (Value × Value) :=
  if entries.any (fun kv => valueBeq kv.fst k) then
    entries.map (fun kv => if valueBeq kv.fst k then (kv.fst, v) else kv)
  else entries ++ [(k, v)]

/-- `Unserializer.load_setitem` core: `self.stack[-1][key] = value`. -/
def setitemOn (target key value : Value) : Except LoadErr Value :=
  match target with
  | Value.list L =>
      match pyKeyIndex key with
      | some i =>
          match listAssign L i value with
          | Except.error e => Except.error e
          | Except.ok L2 => Except.ok (Value.list L2)
      | Option.none => Except.error LoadErr.typeError
  | Value.dict d =>
      if hashable key then Except.ok (Value.dict (dictAssign d key value))
      else Except.error LoadErr.typeError
  | _ => Except.error LoadErr.typeError

/-- Strict UTF-8 decoding (Python `bytes.decode("utf-8")`): rejects
continuation-byte starts, overlong forms, surrogates, and values above
0x10FFFF. -/
def utf8Decode : List Nat → Option (List Nat)
  | [] => some []
  | b :: rest =>
      if b < 128 then
        match utf8Decode rest with
        | some cps => some (b :: cps)
        | Option.none => Option.none
      else if b < 194 then Option.none
      else if b < 224 then
        match rest with
        | b2 :: r =>
            if 128 ≤ b2 && b2 < 192 then
              match utf8Decode r with
              | some cps => some (((b - 192) * 64 + (b2 - 128)) :: cps)
              | Option.none => Option.none
            else Option.none
        | [] => Option.none
      else if b < 240 then
        match rest with
        | b2 :: b3 :: r =>
            if (128 ≤ b2 && b2 < 192) && (128 ≤ b3 && b3 < 192) then
              let cp := (b - 224) * 4096 + (b2 - 128) * 64 + (b3 - 128)
              if cp < 2048 || (55296 ≤ cp && cp < 57344) then Option.none
              else
                match utf8Decode r with
                | some cps => some (cp :: cps)
                | Option.none => Option.none
            else Option.none
        | _ => Option.none
      else if b < 245 then
        match rest with
        | b2 :: b3 :: b4 :: r =>
            if ((128 ≤ b2 && b2 < 192) && (128 ≤ b3 && b3 < 192))
                && (128 ≤ b4 && b4 < 192) then
              let cp := (b - 240) * 262144 + (b2 - 128) * 4096
                          + (b3 - 128) * 64 + (b4 - 128)
              if cp < 65536 || 1114112 ≤ cp then Option.none
              else
                match utf8Decode r with
                | some cps => some (cp :: cps)
                | Option.none => Option.none
            else Option.none
        | _ => Option.none
      else Option.none

/-- `stream.read(length)` after a length prefix: a non-positive count
reads nothing (socket semantics), a short stream is `EOFError`. -/
def readPayload (len : Int) (r : List Nat) :
    Except LoadErr (List Nat × List Nat) :=
  if len ≤ 0 then Except.ok ([], r)
  else if r.length < len.toNat then Except.error LoadErr.eofError
  else Except.ok (r.take len.toNat, r.drop len.toNat)

/-- The opcode bytes present in `Unserializer.opcodes`. -/
def knownOpcode (b : Nat) : Bool :=
  b == STOP || b == NONE || b == TRUE || b == FALSE || b == INT
    || b == FLOAT || b == BYTES || b == PY3STRING || b == PY2STRING
    || b == UNICODE || b == NEWLIST || b == SETITEM || b == NEWDICT
    || b == BUILDTUPLE

/-- Number of elements `stack[-length:]` takes off the top of a stack
of `n` items (Python slice semantics; `length = 0` takes the whole
stack because `-0 == 0`). -/
def tupleTake (n : Nat) (len : Int) : Nat :=
  if 0 < len then min n len.toNat else n - min n (-len).toNat

/-- The effect of one opcode on the loop: stop with the result, or
continue with a new stack and remaining bytes. -/
inductive LoopCmd where
  | done (v : Value) : LoopCmd
  | next (stack : List Value) (rest : List Nat) : LoopCmd

/-- Dispatch of one opcode byte from `Unserializer.opcodes`,
mutating the value stack (head = top) and consuming the opcode's
payload from the remaining bytes. -/
def execOpcode (opts : UnserOpts) (op : Nat) (stack : List Value)
    (rest : List Nat) : Except LoadErr LoopCmd :=
  if op = STOP then
    match stack with
    | [x] => Except.ok (LoopCmd.done x)
    | _ => Except.error (LoadErr.unserialization UReason.stackResidue)
  else if op = NONE then Except.ok (LoopCmd.next (Value.none :: stack) rest)
  else if op = TRUE then
    Except.ok (LoopCmd.next (Value.bool true :: stack) rest)
  else if op = FALSE then
    Except.ok (LoopCmd.next (Value.bool false :: stack) rest)
  else if op = INT then
    match rest with
    | b0 :: b1 :: b2 :: b3 :: r =>
        Except.ok (LoopCmd.next (Value.int (sInt32 b0 b1 b2 b3) :: stack) r)
    | _ => Except.error LoadErr.eofError
  else if op = FLOAT then
    match rest with
    | b0 :: b1 :: b2 :: b3 :: b4 :: b5 :: b6 :: b7 :: r =>
        Except.ok (LoopCmd.next
          (Value.float (nat64 b0 b1 b2 b3 b4 b5 b6 b7) :: stack) r)
    | _ => Except.error LoadErr.eofError
  else if op = BYTES then
    match rest with
    | b0 :: b1 :: b2 :: b3 :: r =>
        match readPayload (sInt32 b0 b1 b2 b3) r with
        | Except.error e => Except.error e
        | Except.ok pr =>
            Except.ok (LoopCmd.next (Value.bytes pr.fst :: stack) pr.snd)
    | _ => Except.error LoadErr.eofError
  else if op = PY3STRING then
    match rest with
    | b0 :: b1 :: b2 :: b3 :: r =>
        match readPayload (sInt32 b0 b1 b2 b3) r with
        | Except.error e => Except.error e
        | Except.ok pr =>
            match utf8Decode pr.fst with
            | some cps =>
                Except.ok (LoopCmd.next (Value.str cps :: stack) pr.snd)
            | Option.none => Except.error LoadErr.unicodeError
    | _ => Except.error LoadErr.eofError
  else if op = PY2STRING then
    match rest with
    | b0 :: b1 :: b2 :: b3 :: r =>
        match readPayload (sInt32 b0 b1 b2 b3) r with
        | Except.error e => Except.error e
        | Except.ok pr =>
            if opts.py2_strings_as_str then
              Except.ok (LoopCmd.next (Value.str pr.fst :: stack) pr.snd)
            else
              Except.ok (LoopCmd.next (Value.bytes pr.fst :: stack) pr.snd)
    | _ => Except.error LoadErr.eofError
  else if op = UNICODE then
    match rest with
    | b0 :: b1 :: b2 :: b3 :: r =>
        match readPayload (sInt32 b0 b1 b2 b3) r with
        | Except.error e => Except.error e
        | Except.ok pr =>
            match utf8Decode pr.fst with
            | some cps =>
                Except.ok (LoopCmd.next (Value.str cps :: stack) pr.snd)
            | Option.none => Except.error LoadErr.unicodeError
    | _ => Except.error LoadErr.eofError
  else if op = NEWLIST then
    match rest with
    | b0 :: b1 :: b2 :: b3 :: r =>
        Except.ok (LoopCmd.next
          (Value.list (List.replicate (sInt32 b0 b1 b2 b3).toNat Value.none)
            :: stack) r)
    | _ => Except.error LoadErr.eofError
  else if op = SETITEM then
    match stack with
    | value :: key :: target :: below =>
        match setitemOn target key value with
        | Except.error e => Except.error e
        | Except.ok t2 => Except.ok (LoopCmd.next (t2 :: below) rest)
    | _ => Except.error (LoadErr.unserialization UReason.setitemUnderflow)
  else if op = NEWDICT then
    Except.ok (LoopCmd.next (Value.dict [] :: stack) rest)
  else if op = BUILDTUPLE then
    match rest with
    | b0 :: b1 :: b2 :: b3 :: r =>
        let k := tupleTake stack.length (sInt32 b0 b1 b2 b3)
        Except.ok (LoopCmd.next
          (Value.tup (stack.take k).reverse :: stack.drop k) r)
    | _ => Except.error LoadErr.eofError
  else Except.error (LoadErr.unserialization UReason.unknownOpcode)

/-- `Unserializer.load` main loop: one opcode per iteration.  `fuel`
only bounds the recursion; the caller passes the stream length, which
every iteration (consuming at least one byte) keeps sufficient. -/
def loadLoop (opts : UnserOpts) (fuel : Nat) (stack : List Value)
    (bs : List Nat) : Except LoadErr Value :=
  match bs with
  | [] => Except.error LoadErr.eofError
  | op :: rest =>
    match fuel with
    | 0 => Except.error LoadErr.eofError
    | fuel + 1 =>
        match execOpcode opts op stack rest with
        | Except.error e => Except.error e
        | Except.ok (LoopCmd.done v) => Except.ok v
        | Except.ok (LoopCmd.next stack2 rest2) =>
            loadLoop opts fuel stack2 rest2

/-- `Unserializer.load`: check the version byte, then run the opcode
loop on an empty stack. -/
def load (opts : UnserOpts) (bs : List Nat) : Except LoadErr Value :=
  match bs with
  | [] => Except.error LoadErr.eofError
  | v :: rest =>
      if v = VERSION_NUMBER then loadLoop opts rest.length [] rest
      else Except.error (LoadErr.unserialization UReason.versionMismatch)

/-! ## Channel and ChannelFactory state machine

One channel object (together with its entries in the factory's
`_channels` weak map and `_callbacks` map) is modelled as a record;
the operations are the methods of `Channel` and the factory's
receiver-thread entry points.  Queued items are data values or the
`ENDMARKER` sentinel; callback invocations are recorded in a log. -/

/-- An entry of `Channel._items`: a data item or the `ENDMARKER`
sentinel enqueued at close. -/
inductive QItem where
  | data (v : Nat) : QItem
  | endmark : QItem
deriving DecidableEq, Repr

/-- One recorded invocation of the installed callback: a data item or
the endmarker value. -/
inductive CbEvent where
  | data (v : Nat) : CbEvent
  | endm (e : Nat) : CbEvent
deriving DecidableEq, Repr

/-- A message handed to `gateway._send`. -/
inductive GMsg where
  | chanNew (onid toid : Nat) : GMsg
  | chanData (onid : Nat) (v : Nat) : GMsg
  | chanClose (id : Nat) : GMsg
  | chanCloseError (id : Nat) (txt : Nat) : GMsg
deriving DecidableEq, Repr

/-- An argument to `Channel.send`: another channel (sent as its id) or
a plain data value. -/
inductive SendItem where
  | channel (cid : Nat) : SendItem
  | value (v : Nat) : SendItem
deriving DecidableEq, Repr

/-- The error argument of `Channel.close`: `RemoteError`s are
additionally appended to `_remoteerrors`. -/
structure CloseErr where
  isRemote : Bool
  txt : Nat
deriving DecidableEq, Repr

/-- State of one channel plus its factory entries: `closed` and
`receiveclosed` flags, the `_items` queue (`none` once a callback was
installed), the `_remoteerrors` list, membership in the factory's
`_channels` map, the `_callbacks` entry (`some em` = callback
registered, with `em = some e` an explicit endmarker and `em = none`
`NO_ENDMARKER_WANTED`), the log of messages sent on the gateway, and
the log of callback invocations. -/
structure ChanState where
  id : Nat
  closed : Bool
  receiveclosed : Bool
  items : Option (List QItem)
  remoteerrors : List Nat
  inChannels : Bool
  cbEntry : Option (Option Nat)
  sent : List GMsg
  cbLog : List CbEvent
deriving DecidableEq, Repr

/-- A channel as `ChannelFactory.new` returns it: open, empty queue,
registered in `_channels`, no callback. -/
def initChan (cid : Nat) : ChanState :=
  { id := cid, closed := false, receiveclosed := false, items := some []
    remoteerrors := [], inChannels := true, cbEntry := Option.none
    sent := [], cbLog := [] }

/-- The callback deliveries `_no_longer_opened` makes when popping a
`_callbacks` entry: the endmarker exactly when one was requested. -/
def endmDeliveries : Option (Option Nat) → List CbEvent
  | some (some e) => [CbEvent.endm e]
  | _ => []

/-- `ChannelFactory._no_longer_opened`: drop the channel from
`_channels`, pop its `_callbacks` entry, and if that entry carried an
explicit endmarker deliver it to the callback. -/
def noLongerOpened (s : ChanState) : ChanState :=
  { s with inChannels := false, cbEntry := Option.none
           cbLog := s.cbLog ++ endmDeliveries s.cbEntry }

/-- What `setcallback`'s drain delivers on meeting the `ENDMARKER`
sentinel: the endmarker, when one was requested. -/
def emDelivery : Option Nat → List CbEvent
  | some e => [CbEvent.endm e]
  | Option.none => []

/-- The drain loop inside `Channel.setcallback`: deliver queued items
through the callback in order; at the first `ENDMARKER` deliver the
endmarker (if one was requested) and stop without registering; if the
queue drains empty, register the callback unless the channel is
already closed or receive-closed. -/
def drainLoop (em : Option Nat) : List QItem → ChanState → ChanState
  | [], s =>
      if s.closed || s.receiveclosed then s
      else { s with cbEntry := some em }
  | QItem.endmark :: _, s => { s with cbLog := s.cbLog ++ emDelivery em }
  | QItem.data v :: rest, s =>
      drainLoop em rest { s with cbLog := s.cbLog ++ [CbEvent.data v] }

/-- `Channel.setcallback`: fails if a callback is already registered
(`_items is None`); otherwise detaches the queue and drains it. -/
def setcallback (em : Option Nat) (s : ChanState) :
    Except Unit ChanState :=
  match s.items with
  | Option.none => Except.error ()
  | some q => Except.ok (drainLoop em q { s with items := Option.none })

/-- The message `Channel.close` sends. -/
def closeMsg (err : Option CloseErr) (cid : Nat) : GMsg :=
  match err with
  | some e => GMsg.chanCloseError cid e.txt
  | Option.none => GMsg.chanClose cid

/-- What `Channel.close` appends to `_remoteerrors`: the error text
exactly when the argument is a `RemoteError`. -/
def closeRemote : Option CloseErr → List Nat
  | some e => if e.isRemote then [e.txt] else []
  | Option.none => []

/-- Enqueue the `ENDMARKER` sentinel if the queue is intact. -/
def appendEnd : Option (List QItem) → Option (List QItem)
  | some q => some (q ++ [QItem.endmark])
  | Option.none => Option.none

/-- `Channel.close`: a no-op when already closed; otherwise send
`CHANNEL_CLOSE` (or `CHANNEL_CLOSE_ERROR`), record a `RemoteError`
argument, flip to closed, set the receive-closed event, enqueue the
`ENDMARKER` sentinel, and run `_no_longer_opened`. -/
def closeCh (err : Option CloseErr) (s : ChanState) : ChanState :=
  if s.closed then s
  else
    noLongerOpened
      { s with sent := s.sent ++ [closeMsg err s.id]
               remoteerrors := s.remoteerrors ++ closeRemote err
               closed := true, receiveclosed := true
               items := appendEnd s.items }

/-- `ChannelFactory._local_close`: if the channel is still in
`_channels`, append any remote error, mark closed (unless
`sendonly`), set the receive-closed event and enqueue the sentinel;
always run `_no_longer_opened`. -/
def localClose (rerr : Option Nat) (sendonly : Bool) (s : ChanState) :
    ChanState :=
  if s.inChannels then
    noLongerOpened
      { s with remoteerrors := s.remoteerrors ++ rerr.toList
               closed := (if sendonly then s.closed else true)
               receiveclosed := true
               items := appendEnd s.items }
  else noLongerOpened s

/-- `ChannelFactory._local_receive`: a registered callback gets the
data (even if the channel object is gone); otherwise a live channel
with an intact queue enqueues it; otherwise the data is dropped. -/
def localReceive (d : Nat) (s : ChanState) : ChanState :=
  match s.cbEntry with
  | some _ => { s with cbLog := s.cbLog ++ [CbEvent.data d] }
  | Option.none =>
      if s.inChannels then
        match s.items with
        | some q => { s with items := some (q ++ [QItem.data d]) }
        | Option.none => s
      else s

/-- What `Channel.receive` does at this state: `IOError` in callback
mode, block on an empty queue, end-of-stream (with the first remote
error, if any) at the sentinel, else the next item. -/
inductive RcvOut where
  | ioErr : RcvOut
  | blocked : RcvOut
  | endOfStream (err : Option Nat) : RcvOut
  | item (v : Nat) : RcvOut
deriving DecidableEq, Repr

/-- The outcome of `Channel.receive`. -/
def receiveRes (s : ChanState) : RcvOut :=
  match s.items with
  | Option.none => RcvOut.ioErr
  | some [] => RcvOut.blocked
  | some (QItem.endmark :: _) => RcvOut.endOfStream s.remoteerrors.head?
  | some (QItem.data v :: _) => RcvOut.item v

/-- The state change of one `Channel.receive` call: pop a data item;
at the sentinel, requeue it and pop the consumed remote error. -/
def recvStep (s : ChanState) : ChanState :=
  match s.items with
  | Option.none => s
  | some [] => s
  | some (QItem.endmark :: rest) =>
      { s with items := some (rest ++ [QItem.endmark])
               remoteerrors := s.remoteerrors.tail }
  | some (QItem.data _ :: rest) => { s with items := some rest }

/-- `Channel.send`: `IOError` when closed; a channel argument becomes
`CHANNEL_NEW` carrying its id, anything else `CHANNEL_DATA`. -/
def sendCh (it : SendItem) (s : ChanState) : Except Unit ChanState :=
  if s.closed then Except.error ()
  else
    let msg := match it with
      | SendItem.channel cid => GMsg.chanNew s.id cid
      | SendItem.value v => GMsg.chanData s.id v
    Except.ok { s with sent := s.sent ++ [msg] }

/-- The operations that can touch one channel's state. -/
inductive Op where
  | setcb (em : Option Nat) : Op
  | close (err : Option CloseErr) : Op
  | localClose (rerr : Option Nat) (sendonly : Bool) : Op
  | localReceive (d : Nat) : Op
  | recv : Op
  | send (it : SendItem) : Op
deriving DecidableEq, Repr

/-- One operation's effect on the state (an operation that raises
leaves the state unchanged). -/
def stepOp (op : Op) (s : ChanState) : ChanState :=
  match op with
  | Op.setcb em =>
      match setcallback em s with
      | Except.ok s2 => s2
      | Except.error _ => s
  | Op.close err => closeCh err s
  | Op.localClose rerr so => localClose rerr so s
  | Op.localReceive d => localReceive d s
  | Op.recv => recvStep s
  | Op.send it =>
      match sendCh it s with
      | Except.ok s2 => s2
      | Except.error _ => s

/-- Run a sequence of operations. -/
def runOps (ops : List Op) (s : ChanState) : ChanState :=
  ops.foldl (fun t op => stepOp op t) s

/-- Whether a callback-log event is an endmarker delivery. -/
def isEndm : CbEvent → Bool
  | CbEvent.endm _ => true
  | CbEvent.data _ => false

/-- How often a callback log hands over an endmarker value. -/
def emCount (log : List CbEvent) : Nat :=
  (log.filter isEndm).length

/-! ## ChannelFactory id allocation -/

/-- The factory fields driving `new`: the id counter and the
`finished` flag. -/
structure FactoryState where
  count : Nat
  finished : Bool
deriving DecidableEq, Repr

/-- `ChannelFactory.new()` without an explicit id: fail if finished,
else hand out `count` and advance it by 2. -/
def factoryNew (s : FactoryState) : Except Unit (Nat × FactoryState) :=
  if s.finished then Except.error ()
  else Except.ok (s.count, { s with count := s.count + 2 })

/-- The ids minted by `n` consecutive allocating `new()` calls. -/
def mintIds : Nat → FactoryState → List Nat
  | 0, _ => []
  | n + 1, s =>
      match factoryNew s with
      | Except.error _ => []
      | Except.ok p => p.fst :: mintIds n p.snd

/-! ## Specification-side codec layouts (for the list/dict layout
claim) -/

/-- Sequence the byte outputs of a list of encoding steps,
propagating the first error. -/
def joinE : List (Except SerErr (List Nat)) → Except SerErr (List Nat)
  | [] => Except.ok []
  | x :: xs =>
      match x with
      | Except.error e => Except.error e
      | Except.ok b =>
          match joinE xs with
          | Except.error e => Except.error e
          | Except.ok bs => Except.ok (b ++ bs)

/-- Per-element layout of a list entry as the code emits it: the
integer-encoded index key, then the element's encoding, then
`SETITEM`. -/
def specListEntry (p : Nat × Value) : Except SerErr (List Nat) :=
  match saveIntOp (Int.ofNat p.fst) with
  | Except.error e => Except.error e
  | Except.ok kb =>
      match saveV p.snd with
      | Except.error e => Except.error e
      | Except.ok vb => Except.ok (kb ++ vb ++ [SETITEM])

/-- Per-element layout of a list entry as the claim words it: the
element's encoding, then the integer-encoded index key, then
`SETITEM`.  Modelled from the spec: this is the claimed order, written
down to be compared with the encoder. -/
def claimListEntry (p : Nat × Value) : Except SerErr (List Nat) :=
  match saveV p.snd with
  | Except.error e => Except.error e
  | Except.ok vb =>
      match saveIntOp (Int.ofNat p.fst) with
      | Except.error e => Except.error e
      | Except.ok kb => Except.ok (vb ++ kb ++ [SETITEM])

/-- List layout: `NEWLIST`, the 4-byte length, then the entries in
order (key-first entry layout). -/
def specSaveList (L : List Value) : Except SerErr (List Nat) :=
  match write_int4 (Int.ofNat L.length) with
  | Except.error e => Except.error e
  | Except.ok lenb =>
      match joinE (L.enum.map specListEntry) with
      | Except.error e => Except.error e
      | Except.ok body => Except.ok (NEWLIST :: (lenb ++ body))

/-- List layout exactly as the claim words it (element before index
key).  Modelled from the spec. -/
def claimSaveList (L : List Value) : Except SerErr (List Nat) :=
  match write_int4 (Int.ofNat L.length) with
  | Except.error e => Except.error e
  | Except.ok lenb =>
      match joinE (L.enum.map claimListEntry) with
      | Except.error e => Except.error e
      | Except.ok body => Except.ok (NEWLIST :: (lenb ++ body))

/-- Per-entry layout of a mapping entry: key, value, `SETITEM`. -/
def specDictEntry (kv : Value × Value) : Except SerErr (List Nat) :=
  match saveV kv.fst with
  | Except.error e => Except.error e
  | Except.ok kb =>
      match saveV kv.snd with
      | Except.error e => Except.error e
      | Except.ok vb => Except.ok (kb ++ vb ++ [SETITEM])

/-- Mapping layout: `NEWDICT`, then the entries in order. -/
def specSaveDict (d : List (Value × Value)) : Except SerErr (List Nat) :=
  match joinE (d.map specDictEntry) with
  | Except.error e => Except.error e
  | Except.ok body => Except.ok (NEWDICT :: body)

/-- `Unserializer._read_int4` on a 4-byte field. -/
def readInt4 (l : List Nat) : Int :=
  match l with
  | [b0, b1, b2, b3] => sInt32 b0 b1 b2 b3
  | _ => 0

/-! ## Invariants for the endmarker-once argument -/

/-- 1 when a `_callbacks` entry carries an explicit endmarker whose
delivery is still pending. -/
def cbWeight : Option (Option Nat) → Nat
  | some (some _) => 1
  | _ => 0

/-- Machine invariant before any successful `setcallback`: closed
implies receive-closed; a receive-closed channel with an intact queue
has the sentinel queued; while the queue is intact no callback is
registered and no endmarker was ever delivered. -/
def InvPre (s : ChanState) : Prop :=
  (s.closed = true → s.receiveclosed = true) ∧
  (∀ q, s.items = some q → s.receiveclosed = true → QItem.endmark ∈ q) ∧
  (∀ q, s.items = some q →
    s.cbEntry = Option.none ∧ emCount s.cbLog = 0)

/-- Invariant after a successful `setcallback` with an explicit
endmarker: the queue is detached, closed implies receive-closed, a
still-registered callback means the channel has not receive-closed,
and deliveries so far plus the pending one add up to exactly one. -/
def InvPost (s : ChanState) : Prop :=
  s.items = Option.none ∧
  (s.closed = true → s.receiveclosed = true) ∧
  (s.cbEntry ≠ Option.none → s.receiveclosed = false) ∧
  emCount s.cbLog + cbWeight s.cbEntry = 1

/-! # Theorems -/

/-! ## Helper lemmas -/

theorem emCount_append (l1 l2 : List CbEvent) :
    emCount (l1 ++ l2) = emCount l1 + emCount l2 := by
  simp [emCount, List.filter_append]

theorem emCount_data (v : Nat) : emCount [CbEvent.data v] = 0 := rfl

theorem emCount_endmDeliveries (c : Option (Option Nat)) :
    emCount (endmDeliveries c) = cbWeight c := by
  match c with
  | Option.none => rfl
  | some Option.none => rfl
  | some (some e) => rfl

theorem noLongerOpened_emCount (s : ChanState) :
    emCount (noLongerOpened s).cbLog =
      emCount s.cbLog + cbWeight s.cbEntry := by
  simp [noLongerOpened, emCount_append, emCount_endmDeliveries]

/-! ## C10: close is idempotent on a closed channel -/

/-- C10: `Channel.close` is idempotent: on an already-closed channel a
further `close(error)` sends no message on the gateway, appends no
error, enqueues no end sentinel, and leaves every field of the channel
and of the factory's maps unchanged (the whole state is returned
unmodified). -/
theorem close_on_closed_noop (err : Option CloseErr) (s : ChanState)
    (h : s.closed = true) : closeCh err s = s := by
  simp [closeCh, h]

theorem close_on_closed_noop_witness :
    (closeCh Option.none (initChan 4)).closed = true ∧
    closeCh (some ⟨true, 3⟩) (closeCh Option.none (initChan 4)) =
      closeCh Option.none (initChan 4) :=
  ⟨by decide, close_on_closed_noop (some ⟨true, 3⟩) _ (by decide)⟩

/-! ## C5: send on a channel -/

/-- C5: `Channel.send` fails with `IOError` (emitting no frame, the
state is untouched) when the channel is closed; otherwise a `Channel`
argument is emitted as a `CHANNEL_NEW` message on this channel's id
carrying the argument's id, and any other item as a `CHANNEL_DATA`
message on this channel's id carrying the item. -/
theorem send_frames (s : ChanState) (it : SendItem) :
    (s.closed = true → sendCh it s = Except.error ()) ∧
    (s.closed = false → ∀ cid, it = SendItem.channel cid →
      sendCh it s =
        Except.ok { s with sent := s.sent ++ [GMsg.chanNew s.id cid] }) ∧
    (s.closed = false → ∀ v, it = SendItem.value v →
      sendCh it s =
        Except.ok { s with sent := s.sent ++ [GMsg.chanData s.id v] }) := by
  refine ⟨fun h => by simp [sendCh, h], ?_, ?_⟩
  · intro h cid hit
    subst hit
    simp [sendCh, h]
  · intro h v hit
    subst hit
    simp [sendCh, h]

theorem send_frames_witness :
    ((closeCh Option.none (initChan 2)).closed = true ∧
      sendCh (SendItem.value 9) (closeCh Option.none (initChan 2)) =
        Except.error ()) ∧
    ((initChan 2).closed = false ∧
      sendCh (SendItem.channel 7) (initChan 2) =
        Except.ok { initChan 2 with sent := [GMsg.chanNew 2 7] }) ∧
    sendCh (SendItem.value 9) (initChan 2) =
      Except.ok { initChan 2 with sent := [GMsg.chanData 2 9] } :=
  ⟨⟨by decide, (send_frames _ _).1 (by decide)⟩,
   ⟨by decide, (send_frames _ _).2.1 (by decide) 7 rfl⟩,
   (send_frames _ _).2.2 (by decide) 9 rfl⟩

/-! ## C8: routing of inbound data -/

/-- C8: `ChannelFactory._local_receive` routing: with a callback
registered for the id, the callback receives the data — the statement
puts no condition on `inChannels`, so this holds in particular when
the channel object has been dropped from the live map; with no
callback and a live channel with an intact queue, the data is
enqueued; otherwise (dropped channel, or detached queue) the data is
discarded and no error is raised (the state is simply returned). -/
theorem local_receive_routing (s : ChanState) (d : Nat) :
    (∀ em, s.cbEntry = some em →
      localReceive d s = { s with cbLog := s.cbLog ++ [CbEvent.data d] }) ∧
    (s.cbEntry = Option.none → s.inChannels = true →
      ∀ q, s.items = some q →
        localReceive d s = { s with items := some (q ++ [QItem.data d]) }) ∧
    (s.cbEntry = Option.none → s.inChannels = false →
      localReceive d s = s) ∧
    (s.cbEntry = Option.none → s.items = Option.none →
      localReceive d s = s) := by
  refine ⟨?_, ?_, ?_, ?_⟩
  · intro em h
    simp [localReceive, h]
  · intro h hin q hq
    simp [localReceive, h, hin, hq]
  · intro h hin
    simp [localReceive, h, hin]
  · intro h hq
    cases hin : s.inChannels <;> simp [localReceive, h, hin, hq]

theorem local_receive_routing_witness :
    (localReceive 9 { id := 3, closed := false, receiveclosed := false
                      items := Option.none, remoteerrors := []
                      inChannels := false, cbEntry := some (some 5)
                      sent := [], cbLog := [] } =
      { id := 3, closed := false, receiveclosed := false
        items := Option.none, remoteerrors := [], inChannels := false
        cbEntry := some (some 5), sent := []
        cbLog := [CbEvent.data 9] }) ∧
    (localReceive 9 (initChan 3) =
      { initChan 3 with items := some [QItem.data 9] }) ∧
    (localReceive 9 { id := 3, closed := false, receiveclosed := false
                      items := some [], remoteerrors := []
                      inChannels := false, cbEntry := Option.none
                      sent := [], cbLog := [] } =
      { id := 3, closed := false, receiveclosed := false
        items := some [], remoteerrors := [], inChannels := false
        cbEntry := Option.none, sent := [], cbLog := [] }) ∧
    (localReceive 9 { id := 3, closed := false, receiveclosed := false
                      items := Option.none, remoteerrors := []
                      inChannels := true, cbEntry := Option.none
                      sent := [], cbLog := [] } =
      { id := 3, closed := false, receiveclosed := false
        items := Option.none, remoteerrors := [], inChannels := true
        cbEntry := Option.none, sent := [], cbLog := [] }) :=
  ⟨(local_receive_routing _ 9).1 (some 5) rfl,
   (local_receive_routing _ 9).2.1 rfl rfl [] rfl,
   (local_receive_routing _ 9).2.2.1 rfl rfl,
   (local_receive_routing _ 9).2.2.2 rfl rfl⟩

/-! ## C7: disjoint id pools -/

theorem mintIds_eq (n : Nat) :
    ∀ c, mintIds n ⟨c, false⟩ = (List.range n).map (fun k => c + 2 * k) := by
  induction n with
  | zero => intro c; simp [mintIds]
  | succ m ih =>
      intro c
      have h1 : mintIds (m + 1) ⟨c, false⟩ = c :: mintIds m ⟨c + 2, false⟩ := by
        simp [mintIds, factoryNew]
      have h2 : ((fun k => c + 2 * k) ∘ Nat.succ) = fun k => c + 2 + 2 * k := by
        funext k
        simp [Function.comp]
        omega
      rw [h1, ih (c + 2), List.range_succ_eq_map, List.map_cons, List.map_map,
          h2]
      norm_num

/-- C7: with starting counters of opposite parity (1 and 2, as
`BaseGateway.__init__` arranges), the two `ChannelFactory.new` id
pools are disjoint: the side starting at 1 mints exactly
1, 3, 5, ... (the k-th allocation is 2k+1), the side starting at 2
mints exactly 2, 4, 6, ... (the k-th allocation is 2k+2), and no id
minted on one side equals an id minted on the other. -/
theorem channel_ids_disjoint :
    (∀ n, mintIds n ⟨1, false⟩ = (List.range n).map (fun k => 2 * k + 1)) ∧
    (∀ n, mintIds n ⟨2, false⟩ = (List.range n).map (fun k => 2 * k + 2)) ∧
    (∀ n m a b, a ∈ mintIds n ⟨1, false⟩ → b ∈ mintIds m ⟨2, false⟩ →
      a ≠ b) := by
  have hA : ∀ n, mintIds n ⟨1, false⟩ =
      (List.range n).map (fun k => 2 * k + 1) := by
    intro n
    rw [mintIds_eq]
    apply List.map_congr_left
    intro k _
    omega
  have hB : ∀ n, mintIds n ⟨2, false⟩ =
      (List.range n).map (fun k => 2 * k + 2) := by
    intro n
    rw [mintIds_eq]
    apply List.map_congr_left
    intro k _
    omega
  refine ⟨hA, hB, ?_⟩
  intro n m a b ha hb
  rw [hA] at ha
  rw [hB] at hb
  rcases List.mem_map.mp ha with ⟨k, _, hk⟩
  rcases List.mem_map.mp hb with ⟨j, _, hj⟩
  omega

theorem channel_ids_disjoint_witness :
    1 ∈ mintIds 1 ⟨1, false⟩ ∧ 2 ∈ mintIds 1 ⟨2, false⟩ ∧ (1 : Nat) ≠ 2 :=
  ⟨by decide, by decide,
   channel_ids_disjoint.2.2 1 1 1 2 (by decide) (by decide)⟩

/-! ## C4: encoder overflow checks and the int4 field layout -/

theorem int4Bytes_length (i : Int) : (int4Bytes i).length = 4 := rfl

theorem readInt4_int4Bytes (i : Int) (hlo : -(2 ^ 31 : Int) ≤ i)
    (hhi : i ≤ FOUR_BYTE_INT_MAX) : readInt4 (int4Bytes i) = i := by
  have e32 : (2 ^ 32 : Int) = 4294967296 := by norm_num
  have e24 : (2 ^ 24 : Nat) = 16777216 := by norm_num
  have e16 : (2 ^ 16 : Nat) = 65536 := by norm_num
  have e8 : (2 ^ 8 : Nat) = 256 := by norm_num
  have e31 : (2 ^ 31 : Nat) = 2147483648 := by norm_num
  have e31i : (2 ^ 31 : Int) = 2147483648 := by norm_num
  rw [FOUR_BYTE_INT_MAX] at hhi
  rw [e31i] at hlo
  simp only [readInt4, int4Bytes, sInt32, e32, e24, e16, e8, e31]
  split <;> omega

theorem write_int4_in_range (i : Int) (hlo : -(2 ^ 31 : Int) ≤ i)
    (hhi : i ≤ FOUR_BYTE_INT_MAX) :
    write_int4 i = Except.ok (int4Bytes i) := by
  rw [write_int4, if_neg (by omega), if_neg (by omega)]

theorem utf8Encode_replicate_a (n : Nat) :
    utf8Encode (List.replicate n 97) = List.replicate n 97 := by
  induction n with
  | zero => rfl
  | succ m ih =>
      unfold utf8Encode at *
      rw [List.replicate_succ, List.map_cons, List.flatten_cons, ih,
          show utf8Char 97 = [97] from rfl]
      rfl

/-- C4: encoding an integer above 2^31-1 raises `SerializationError`;
encoding a byte string, or a text string whose UTF-8 encoding, is
longer than 2^31-1 bytes raises `SerializationError`; and within the
accepted signed 32-bit range an integer (or length) field is emitted
as exactly 4 big-endian two's-complement bytes, which `_read_int4`
maps back to the integer. -/
theorem encoder_overflow_and_int4 :
    (∀ i : Int, FOUR_BYTE_INT_MAX < i →
      saveV (Value.int i) = Except.error SerErr.serializationError) ∧
    (∀ bs : List Nat, FOUR_BYTE_INT_MAX < (bs.length : Int) →
      saveV (Value.bytes bs) = Except.error SerErr.serializationError) ∧
    (∀ cps : List Nat,
      FOUR_BYTE_INT_MAX < ((utf8Encode cps).length : Int) →
      saveV (Value.str cps) = Except.error SerErr.serializationError) ∧
    (∀ i : Int, -(2 ^ 31 : Int) ≤ i → i ≤ FOUR_BYTE_INT_MAX →
      write_int4 i = Except.ok (int4Bytes i) ∧
      (int4Bytes i).length = 4 ∧ readInt4 (int4Bytes i) = i) := by
  refine ⟨?_, ?_, ?_, ?_⟩
  · intro i h
    simp [saveV, saveIntOp, write_int4, if_pos h]
  · intro bs h
    have hw : write_int4 ((bs.length : Int)) =
        Except.error SerErr.serializationError := by
      rw [write_int4, if_pos h]
    simp [saveV, write_byte_sequence, hw]
  · intro cps h
    by_cases hv : cps.all validCp
    · have hw : write_int4 (((utf8Encode cps).length : Int)) =
          Except.error SerErr.serializationError := by
        rw [write_int4, if_pos h]
      simp [saveV, write_unicode_string, hv, write_byte_sequence, hw]
    · simp [saveV, write_unicode_string, hv]
  · intro i hlo hhi
    exact ⟨write_int4_in_range i hlo hhi, int4Bytes_length i,
           readInt4_int4Bytes i hlo hhi⟩

theorem encoder_overflow_and_int4_witness :
    (FOUR_BYTE_INT_MAX < (2147483648 : Int) ∧
      saveV (Value.int 2147483648) =
        Except.error SerErr.serializationError) ∧
    (FOUR_BYTE_INT_MAX <
        ((List.replicate 2147483648 (0 : Nat)).length : Int) ∧
      saveV (Value.bytes (List.replicate 2147483648 0)) =
        Except.error SerErr.serializationError) ∧
    (FOUR_BYTE_INT_MAX <
        ((utf8Encode (List.replicate 2147483648 97)).length : Int) ∧
      saveV (Value.str (List.replicate 2147483648 97)) =
        Except.error SerErr.serializationError) ∧
    (write_int4 (-5) = Except.ok (int4Bytes (-5)) ∧
      (int4Bytes (-5)).length = 4 ∧ readInt4 (int4Bytes (-5)) = -5) := by
  have hbs : FOUR_BYTE_INT_MAX <
      (((List.replicate 2147483648 (0 : Nat)).length : Int)) := by
    rw [List.length_replicate, FOUR_BYTE_INT_MAX]
    norm_num
  have hstr : FOUR_BYTE_INT_MAX <
      (((utf8Encode (List.replicate 2147483648 97)).length : Int)) := by
    rw [utf8Encode_replicate_a, List.length_replicate, FOUR_BYTE_INT_MAX]
    norm_num
  have hint : FOUR_BYTE_INT_MAX < (2147483648 : Int) := by
    rw [FOUR_BYTE_INT_MAX]; norm_num
  exact ⟨⟨hint, encoder_overflow_and_int4.1 _ hint⟩,
         ⟨hbs, encoder_overflow_and_int4.2.1 _ hbs⟩,
         ⟨hstr, encoder_overflow_and_int4.2.2.1 _ hstr⟩,
         encoder_overflow_and_int4.2.2.2 (-5) (by norm_num) (by
           rw [FOUR_BYTE_INT_MAX]; norm_num)⟩

/-! ## C3: decoder error conditions -/

/-- C3 counterexample: the stream consisting of just the version byte
is truncated before `STOP`, yet `Unserializer.load` raises `EOFError`
(`self.stream.read(1)` hits end-of-stream), which is not an
`UnserializationError` — refuting the claim that every truncation
raises an `UnserializationError`. -/
theorem truncation_not_unserialization_cex :
    load defaultOpts [1] = Except.error LoadErr.eofError ∧
    isUnser LoadErr.eofError = false := by
  exact ⟨rfl, rfl⟩

/-- An erroring opcode dispatch aborts the decoder loop with that
error (`loader(self)` raising propagates out of `Unserializer.load`). -/
theorem loadLoop_exec_error (opts : UnserOpts) (fuel : Nat)
    (stack : List Value) (op : Nat) (rest : List Nat) (e : LoadErr)
    (h : execOpcode opts op stack rest = Except.error e) :
    loadLoop opts (fuel + 1) stack (op :: rest) = Except.error e := by
  rw [show loadLoop opts (fuel + 1) stack (op :: rest) =
      (match execOpcode opts op stack rest with
       | Except.error e => Except.error e
       | Except.ok (LoopCmd.done v) => Except.ok v
       | Except.ok (LoopCmd.next stack2 rest2) =>
           loadLoop opts fuel stack2 rest2) from rfl, h]

/-- C3 (amended): the decoder raises `UnserializationError` when the
first byte is not the version value 1, when an opcode byte is not in
the opcode table, when `SETITEM` arrives with fewer than three stack
entries, and when `STOP` arrives while the stack does not hold exactly
one item; truncated input (the stream exhausted before `STOP`) raises
`EOFError` instead — at the opcode fetch, at every fixed-size payload
read (the 4 bytes of `INT`, `NEWLIST` and `BUILDTUPLE`, the 8 bytes of
`FLOAT`, the 4 length bytes of `BYTES`/`PY3STRING`/`PY2STRING`/
`UNICODE`), and at every length-prefixed payload body cut shorter than
its positive declared length (a non-positive length reads no bytes, so
no truncation can occur there); and `STOP` with exactly one item on
the stack returns that item. -/
theorem decoder_error_conditions :
    (∀ opts b rest, b ≠ VERSION_NUMBER →
      load opts (b :: rest) =
        Except.error (LoadErr.unserialization UReason.versionMismatch)) ∧
    (∀ opts, load opts [] = Except.error LoadErr.eofError) ∧
    (∀ opts fuel stack,
      loadLoop opts fuel stack [] = Except.error LoadErr.eofError) ∧
    (∀ opts fuel stack op rest, knownOpcode op = false →
      loadLoop opts (fuel + 1) stack (op :: rest) =
        Except.error (LoadErr.unserialization UReason.unknownOpcode)) ∧
    (∀ opts fuel stack rest, stack.length < 3 →
      loadLoop opts (fuel + 1) stack (SETITEM :: rest) =
        Except.error (LoadErr.unserialization UReason.setitemUnderflow)) ∧
    (∀ opts fuel stack rest, stack.length ≠ 1 →
      loadLoop opts (fuel + 1) stack (STOP :: rest) =
        Except.error (LoadErr.unserialization UReason.stackResidue)) ∧
    (∀ opts fuel stack rest, rest.length < 4 →
      loadLoop opts (fuel + 1) stack (INT :: rest) =
        Except.error LoadErr.eofError) ∧
    (∀ opts fuel stack rest, rest.length < 8 →
      loadLoop opts (fuel + 1) stack (FLOAT :: rest) =
        Except.error LoadErr.eofError) ∧
    (∀ opts fuel stack rest, rest.length < 4 →
      loadLoop opts (fuel + 1) stack (NEWLIST :: rest) =
        Except.error LoadErr.eofError) ∧
    (∀ opts fuel stack rest, rest.length < 4 →
      loadLoop opts (fuel + 1) stack (BUILDTUPLE :: rest) =
        Except.error LoadErr.eofError) ∧
    (∀ opts fuel stack rest, rest.length < 4 →
      loadLoop opts (fuel + 1) stack (BYTES :: rest) =
        Except.error LoadErr.eofError) ∧
    (∀ opts fuel stack rest, rest.length < 4 →
      loadLoop opts (fuel + 1) stack (PY3STRING :: rest) =
        Except.error LoadErr.eofError) ∧
    (∀ opts fuel stack rest, rest.length < 4 →
      loadLoop opts (fuel + 1) stack (PY2STRING :: rest) =
        Except.error LoadErr.eofError) ∧
    (∀ opts fuel stack rest, rest.length < 4 →
      loadLoop opts (fuel + 1) stack (UNICODE :: rest) =
        Except.error LoadErr.eofError) ∧
    (∀ opts fuel stack b0 b1 b2 b3 r, 0 < sInt32 b0 b1 b2 b3 →
      r.length < (sInt32 b0 b1 b2 b3).toNat →
      loadLoop opts (fuel + 1) stack (BYTES :: b0 :: b1 :: b2 :: b3 :: r) =
        Except.error LoadErr.eofError) ∧
    (∀ opts fuel stack b0 b1 b2 b3 r, 0 < sInt32 b0 b1 b2 b3 →
      r.length < (sInt32 b0 b1 b2 b3).toNat →
      loadLoop opts (fuel + 1) stack
          (PY3STRING :: b0 :: b1 :: b2 :: b3 :: r) =
        Except.error LoadErr.eofError) ∧
    (∀ opts fuel stack b0 b1 b2 b3 r, 0 < sInt32 b0 b1 b2 b3 →
      r.length < (sInt32 b0 b1 b2 b3).toNat →
      loadLoop opts (fuel + 1) stack
          (PY2STRING :: b0 :: b1 :: b2 :: b3 :: r) =
        Except.error LoadErr.eofError) ∧
    (∀ opts fuel stack b0 b1 b2 b3 r, 0 < sInt32 b0 b1 b2 b3 →
      r.length < (sInt32 b0 b1 b2 b3).toNat →
      loadLoop opts (fuel + 1) stack
          (UNICODE :: b0 :: b1 :: b2 :: b3 :: r) =
        Except.error LoadErr.eofError) ∧
    (∀ opts fuel x rest,
      loadLoop opts (fuel + 1) [x] (STOP :: rest) = Except.ok x) := by
  have hreadShort : ∀ b0 b1 b2 b3 : Nat, ∀ r : List Nat,
      0 < sInt32 b0 b1 b2 b3 → r.length < (sInt32 b0 b1 b2 b3).toNat →
      readPayload (sInt32 b0 b1 b2 b3) r = Except.error LoadErr.eofError := by
    intro b0 b1 b2 b3 r hpos hshort
    rw [readPayload, if_neg (by omega), if_pos hshort]
  have hfix4 : ∀ rest : List Nat, rest.length < 4 →
      rest = [] ∨ (∃ a, rest = [a]) ∨ (∃ a b, rest = [a, b]) ∨
        ∃ a b c, rest = [a, b, c] := by
    intro rest h
    match rest with
    | [] => exact Or.inl rfl
    | [a] => exact Or.inr (Or.inl ⟨a, rfl⟩)
    | [a, b] => exact Or.inr (Or.inr (Or.inl ⟨a, b, rfl⟩))
    | [a, b, c] => exact Or.inr (Or.inr (Or.inr ⟨a, b, c, rfl⟩))
    | a :: b :: c :: d :: tl =>
        simp only [List.length_cons] at h
        omega
  refine ⟨?_, ?_, ?_, ?_, ?_, ?_, ?_, ?_, ?_, ?_, ?_, ?_, ?_, ?_, ?_,
    ?_, ?_, ?_, ?_⟩
  · intro opts b rest hb
    simp [load, hb]
  · intro opts
    rfl
  · intro opts fuel stack
    cases fuel <;> rfl
  · intro opts fuel stack op rest h
    simp only [knownOpcode, Bool.or_eq_false_iff, beq_eq_false_iff_ne,
      ne_eq] at h
    obtain ⟨⟨⟨⟨⟨⟨⟨⟨⟨⟨⟨⟨⟨h1, h2⟩, h3⟩, h4⟩, h5⟩, h6⟩, h7⟩, h8⟩, h9⟩,
      h10⟩, h11⟩, h12⟩, h13⟩, h14⟩ := h
    have hexec : execOpcode opts op stack rest =
        Except.error (LoadErr.unserialization UReason.unknownOpcode) := by
      unfold execOpcode
      rw [if_neg h1, if_neg h2, if_neg h3, if_neg h4, if_neg h5, if_neg h6,
          if_neg h7, if_neg h8, if_neg h9, if_neg h10, if_neg h11,
          if_neg h12, if_neg h13, if_neg h14]
    rw [loadLoop]
    simp [hexec]
  · intro opts fuel stack rest h
    match stack with
    | [] => rfl
    | [a] => rfl
    | [a, b] => rfl
    | a :: b :: c :: tl =>
        simp only [List.length_cons] at h
        omega
  · intro opts fuel stack rest h
    match stack with
    | [] => rfl
    | [a] => simp at h
    | a :: b :: tl => rfl
  · intro opts fuel stack rest h
    rcases hfix4 rest h with rfl | ⟨a, rfl⟩ | ⟨a, b, rfl⟩ |
      ⟨a, b, c, rfl⟩ <;> rfl
  · intro opts fuel stack rest h
    match rest with
    | [] => rfl
    | [a] => rfl
    | [a, b] => rfl
    | [a, b, c] => rfl
    | [a, b, c, d] => rfl
    | [a, b, c, d, e] => rfl
    | [a, b, c, d, e, f] => rfl
    | [a, b, c, d, e, f, g] => rfl
    | a :: b :: c :: d :: e :: f :: g :: i :: tl =>
        simp only [List.length_cons] at h
        omega
  · intro opts fuel stack rest h
    rcases hfix4 rest h with rfl | ⟨a, rfl⟩ | ⟨a, b, rfl⟩ |
      ⟨a, b, c, rfl⟩ <;> rfl
  · intro opts fuel stack rest h
    rcases hfix4 rest h with rfl | ⟨a, rfl⟩ | ⟨a, b, rfl⟩ |
      ⟨a, b, c, rfl⟩ <;> rfl
  · intro opts fuel stack rest h
    rcases hfix4 rest h with rfl | ⟨a, rfl⟩ | ⟨a, b, rfl⟩ |
      ⟨a, b, c, rfl⟩ <;> rfl
  · intro opts fuel stack rest h
    rcases hfix4 rest h with rfl | ⟨a, rfl⟩ | ⟨a, b, rfl⟩ |
      ⟨a, b, c, rfl⟩ <;> rfl
  · intro opts fuel stack rest h
    rcases hfix4 rest h with rfl | ⟨a, rfl⟩ | ⟨a, b, rfl⟩ |
      ⟨a, b, c, rfl⟩ <;> rfl
  · intro opts fuel stack rest h
    rcases hfix4 rest h with rfl | ⟨a, rfl⟩ | ⟨a, b, rfl⟩ |
      ⟨a, b, c, rfl⟩ <;> rfl
  · intro opts fuel stack b0 b1 b2 b3 r hpos hshort
    apply loadLoop_exec_error
    simp [execOpcode, BYTES, STOP, NONE, TRUE, FALSE, INT, FLOAT,
      PY3STRING, PY2STRING, UNICODE,
      hreadShort b0 b1 b2 b3 r hpos hshort]
  · intro opts fuel stack b0 b1 b2 b3 r hpos hshort
    apply loadLoop_exec_error
    simp [execOpcode, BYTES, STOP, NONE, TRUE, FALSE, INT, FLOAT,
      PY3STRING, PY2STRING, UNICODE,
      hreadShort b0 b1 b2 b3 r hpos hshort]
  · intro opts fuel stack b0 b1 b2 b3 r hpos hshort
    apply loadLoop_exec_error
    simp [execOpcode, BYTES, STOP, NONE, TRUE, FALSE, INT, FLOAT,
      PY3STRING, PY2STRING, UNICODE,
      hreadShort b0 b1 b2 b3 r hpos hshort]
  · intro opts fuel stack b0 b1 b2 b3 r hpos hshort
    apply loadLoop_exec_error
    simp [execOpcode, BYTES, STOP, NONE, TRUE, FALSE, INT, FLOAT,
      PY3STRING, PY2STRING, UNICODE,
      hreadShort b0 b1 b2 b3 r hpos hshort]
  · intro opts fuel x rest
    rfl

theorem decoder_error_conditions_witness :
    ((2 : Nat) ≠ VERSION_NUMBER ∧
      load defaultOpts [2, 83] =
        Except.error (LoadErr.unserialization UReason.versionMismatch)) ∧
    load defaultOpts [] = Except.error LoadErr.eofError ∧
    loadLoop defaultOpts 0 [] [] = Except.error LoadErr.eofError ∧
    (knownOpcode 77 = false ∧
      loadLoop defaultOpts 3 [] [77] =
        Except.error (LoadErr.unserialization UReason.unknownOpcode)) ∧
    (([] : List Value).length < 3 ∧
      loadLoop defaultOpts 1 [] [SETITEM] =
        Except.error (LoadErr.unserialization UReason.setitemUnderflow)) ∧
    (([] : List Value).length ≠ 1 ∧
      loadLoop defaultOpts 1 [] [STOP] =
        Except.error (LoadErr.unserialization UReason.stackResidue)) ∧
    (([7] : List Nat).length < 4 ∧
      loadLoop defaultOpts 1 [] [INT, 7] = Except.error LoadErr.eofError) ∧
    (([1, 2, 3] : List Nat).length < 8 ∧
      loadLoop defaultOpts 1 [] [FLOAT, 1, 2, 3] =
        Except.error LoadErr.eofError) ∧
    (([] : List Nat).length < 4 ∧
      loadLoop defaultOpts 1 [] [NEWLIST] = Except.error LoadErr.eofError) ∧
    (([0] : List Nat).length < 4 ∧
      loadLoop defaultOpts 1 [] [BUILDTUPLE, 0] =
        Except.error LoadErr.eofError) ∧
    (([0, 0] : List Nat).length < 4 ∧
      loadLoop defaultOpts 1 [] [BYTES, 0, 0] =
        Except.error LoadErr.eofError) ∧
    (([0, 0, 0] : List Nat).length < 4 ∧
      loadLoop defaultOpts 1 [] [PY3STRING, 0, 0, 0] =
        Except.error LoadErr.eofError) ∧
    (([] : List Nat).length < 4 ∧
      loadLoop defaultOpts 1 [] [PY2STRING] =
        Except.error LoadErr.eofError) ∧
    (([5] : List Nat).length < 4 ∧
      loadLoop defaultOpts 1 [] [UNICODE, 5] =
        Except.error LoadErr.eofError) ∧
    ((0 : Int) < sInt32 0 0 0 5 ∧
      ([1, 2, 3] : List Nat).length < (sInt32 0 0 0 5).toNat ∧
      loadLoop defaultOpts 1 [] [BYTES, 0, 0, 0, 5, 1, 2, 3] =
        Except.error LoadErr.eofError) ∧
    ((0 : Int) < sInt32 0 0 0 5 ∧
      ([1, 2, 3] : List Nat).length < (sInt32 0 0 0 5).toNat ∧
      loadLoop defaultOpts 1 [] [PY3STRING, 0, 0, 0, 5, 1, 2, 3] =
        Except.error LoadErr.eofError) ∧
    ((0 : Int) < sInt32 0 0 0 5 ∧
      ([1, 2, 3] : List Nat).length < (sInt32 0 0 0 5).toNat ∧
      loadLoop defaultOpts 1 [] [PY2STRING, 0, 0, 0, 5, 1, 2, 3] =
        Except.error LoadErr.eofError) ∧
    ((0 : Int) < sInt32 0 0 0 5 ∧
      ([1, 2, 3] : List Nat).length < (sInt32 0 0 0 5).toNat ∧
      loadLoop defaultOpts 1 [] [UNICODE, 0, 0, 0, 5, 1, 2, 3] =
        Except.error LoadErr.eofError) ∧
    loadLoop defaultOpts 1 [Value.none] [STOP] = Except.ok Value.none := by
  obtain ⟨w1, w2, w3, w4, w5, w6, t1, t2, t3, t4, t5, t6, t7, t8, p1, p2,
    p3, p4, w7⟩ := decoder_error_conditions
  exact ⟨⟨by decide, w1 defaultOpts 2 [83] (by decide)⟩,
    w2 defaultOpts,
    w3 defaultOpts 0 [],
    ⟨by decide, w4 defaultOpts 2 [] 77 [] (by decide)⟩,
    ⟨by decide, w5 defaultOpts 0 [] [] (by decide)⟩,
    ⟨by decide, w6 defaultOpts 0 [] [] (by decide)⟩,
    ⟨by decide, t1 defaultOpts 0 [] [7] (by decide)⟩,
    ⟨by decide, t2 defaultOpts 0 [] [1, 2, 3] (by decide)⟩,
    ⟨by decide, t3 defaultOpts 0 [] [] (by decide)⟩,
    ⟨by decide, t4 defaultOpts 0 [] [0] (by decide)⟩,
    ⟨by decide, t5 defaultOpts 0 [] [0, 0] (by decide)⟩,
    ⟨by decide, t6 defaultOpts 0 [] [0, 0, 0] (by decide)⟩,
    ⟨by decide, t7 defaultOpts 0 [] [] (by decide)⟩,
    ⟨by decide, t8 defaultOpts 0 [] [5] (by decide)⟩,
    ⟨by decide, by decide,
      p1 defaultOpts 0 [] 0 0 0 5 [1, 2, 3] (by decide) (by decide)⟩,
    ⟨by decide, by decide,
      p2 defaultOpts 0 [] 0 0 0 5 [1, 2, 3] (by decide) (by decide)⟩,
    ⟨by decide, by decide,
      p3 defaultOpts 0 [] 0 0 0 5 [1, 2, 3] (by decide) (by decide)⟩,
    ⟨by decide, by decide,
      p4 defaultOpts 0 [] 0 0 0 5 [1, 2, 3] (by decide) (by decide)⟩,
    w7 defaultOpts 0 Value.none []⟩

/-! ## C2: list and dict wire layout -/

theorem saveItems_spec (L : List Value) :
    ∀ i, saveItems i L = joinE ((List.enumFrom i L).map specListEntry) := by
  induction L with
  | nil => intro i; rfl
  | cons v rest ih =>
      intro i
      show saveItems i (v :: rest) = _
      rw [saveItems]
      simp only [List.enumFrom, List.map_cons, joinE, specListEntry]
      cases hk : saveIntOp (Int.ofNat i) with
      | error e => rfl
      | ok kb =>
          cases hv : saveV v with
          | error e => rfl
          | ok vb =>
              rw [ih (i + 1)]
              cases hr : joinE ((List.enumFrom (i + 1) rest).map
                  specListEntry) with
              | error e => rfl
              | ok rb => simp

theorem savePairs_spec (d : List (Value × Value)) :
    savePairs d = joinE (d.map specDictEntry) := by
  induction d with
  | nil => rfl
  | cons kv rest ih =>
      rw [savePairs]
      simp only [List.map_cons, joinE, specDictEntry]
      cases hk : saveV kv.fst with
      | error e => rfl
      | ok kb =>
          cases hv : saveV kv.snd with
          | error e => rfl
          | ok vb =>
              rw [ih]
              cases hr : joinE (rest.map specDictEntry) with
              | error e => rfl
              | ok rb => simp

/-- C2 counterexample: at the one-element list `[None]` the encoder's
output differs from the claimed layout (element encoding before the
integer-encoded index key): the code emits the index key first. -/
theorem list_layout_cex :
    saveV (Value.list [Value.none]) ≠ claimSaveList [Value.none] := by
  have h1 : saveV (Value.list [Value.none]) =
      Except.ok [108, 0, 0, 0, 1, 105, 0, 0, 0, 0, 110, 109] := rfl
  have h2 : claimSaveList [Value.none] =
      Except.ok [108, 0, 0, 0, 1, 110, 105, 0, 0, 0, 0, 109] := rfl
  rw [h1, h2]
  intro h
  exact absurd (Except.ok.inj h) (by decide)

/-- C2 (amended): for every list `L` the encoder emits the `NEWLIST`
opcode `l` followed by the 4-byte length of `L` and then, for each
element of `L` in order, the integer-encoded index key followed by the
encoding of the element followed by the `SETITEM` opcode; for every
mapping it emits `d` and then per entry the key, the value, and
`SETITEM`. -/
theorem list_dict_layout :
    (∀ L, saveV (Value.list L) = specSaveList L) ∧
    (∀ d, saveV (Value.dict d) = specSaveDict d) := by
  constructor
  · intro L
    rw [saveV, specSaveList, saveItems_spec L 0]
    rfl
  · intro d
    rw [saveV, specSaveDict, savePairs_spec d]

/-! ## C1: codec round-trip fails on nested empty tuples -/

/-- C1 failing input: the supported value `(None, ())` does not
round-trip.  `save_tuple` emits the empty inner tuple as `T` with
length 0; `load_buildtuple` then computes `self.stack[-0:]`, which in
Python is the whole stack, so the decoder swallows the already-decoded
`None` into the inner tuple and returns `((None,),)`.  The encoding
succeeds, decoding succeeds, but the result differs from the input. -/
theorem empty_tuple_roundtrip_bug :
    save (Value.tup [Value.none, Value.tup []]) =
      Except.ok [1, 110, 84, 0, 0, 0, 0, 84, 0, 0, 0, 2, 83] ∧
    load defaultOpts [1, 110, 84, 0, 0, 0, 0, 84, 0, 0, 0, 2, 83] =
      Except.ok (Value.tup [Value.tup [Value.none]]) ∧
    Value.tup [Value.tup [Value.none]] ≠
      Value.tup [Value.none, Value.tup []] := by
  refine ⟨rfl, rfl, ?_⟩
  intro h
  simp at h

/-! ## C6: callback mode is exclusive and permanent -/

theorem runOps_nil (s : ChanState) : runOps [] s = s := rfl

theorem runOps_cons (op : Op) (ops : List Op) (s : ChanState) :
    runOps (op :: ops) s = runOps ops (stepOp op s) := rfl

theorem noLongerOpened_items (s : ChanState) :
    (noLongerOpened s).items = s.items := rfl

theorem noLongerOpened_closed (s : ChanState) :
    (noLongerOpened s).closed = s.closed := rfl

theorem noLongerOpened_receiveclosed (s : ChanState) :
    (noLongerOpened s).receiveclosed = s.receiveclosed := rfl

theorem noLongerOpened_cbEntry (s : ChanState) :
    (noLongerOpened s).cbEntry = Option.none := rfl

theorem drainLoop_fields (em : Option Nat) (q : List QItem) :
    ∀ s : ChanState,
      (drainLoop em q s).closed = s.closed ∧
      (drainLoop em q s).receiveclosed = s.receiveclosed ∧
      (drainLoop em q s).items = s.items := by
  induction q with
  | nil =>
      intro s
      simp only [drainLoop]
      split <;> simp
  | cons x rest ih =>
      intro s
      cases x with
      | endmark => simp [drainLoop]
      | data v => simpa [drainLoop] using ih _

theorem setcallback_ok_items (em : Option Nat) (s s2 : ChanState)
    (h : setcallback em s = Except.ok s2) : s2.items = Option.none := by
  unfold setcallback at h
  cases hi : s.items with
  | none => rw [hi] at h; exact absurd h (by simp)
  | some q =>
      rw [hi] at h
      have h2 := Except.ok.inj h
      rw [← h2, (drainLoop_fields em q _).2.2]

theorem stepOp_items_none (op : Op) (s : ChanState)
    (h : s.items = Option.none) : (stepOp op s).items = Option.none := by
  cases op with
  | setcb em => simp [stepOp, setcallback, h]
  | close err =>
      by_cases hc : s.closed <;>
        simp [stepOp, closeCh, hc, noLongerOpened, appendEnd, h]
  | localClose rerr so =>
      by_cases hin : s.inChannels <;>
        simp [stepOp, localClose, hin, noLongerOpened, appendEnd, h]
  | localReceive d =>
      cases hcb : s.cbEntry <;> simp [stepOp, localReceive, hcb, h]
  | recv => simp [stepOp, recvStep, h]
  | send it =>
      by_cases hc : s.closed <;> simp [stepOp, sendCh, hc, h]

theorem runOps_items_none (ops : List Op) :
    ∀ s : ChanState, s.items = Option.none →
      (runOps ops s).items = Option.none := by
  induction ops with
  | nil => intro s h; exact h
  | cons op rest ih =>
      intro s h
      rw [runOps_cons]
      exact ih _ (stepOp_items_none op s h)

/-- C6: once `setcallback` has succeeded on a channel, after any
further sequence of operations every `receive()` fails with `IOError`,
and a second `setcallback` fails with `IOError` while changing nothing
(in particular the installed callback entry stays in place). -/
theorem callback_mode_exclusive (em em2 : Option Nat) (s s2 : ChanState)
    (ops : List Op) (hok : setcallback em s = Except.ok s2) :
    receiveRes (runOps ops s2) = RcvOut.ioErr ∧
    setcallback em2 (runOps ops s2) = Except.error () ∧
    stepOp (Op.setcb em2) (runOps ops s2) = runOps ops s2 := by
  have hnone : (runOps ops s2).items = Option.none :=
    runOps_items_none ops s2 (setcallback_ok_items em s s2 hok)
  exact ⟨by simp [receiveRes, hnone], by simp [setcallback, hnone],
         by simp [stepOp, setcallback, hnone]⟩

theorem callback_mode_exclusive_witness :
    setcallback Option.none (initChan 0) =
      Except.ok { id := 0, closed := false, receiveclosed := false
                  items := Option.none, remoteerrors := []
                  inChannels := true, cbEntry := some Option.none
                  sent := [], cbLog := [] } ∧
    receiveRes (runOps [Op.localReceive 4]
      { id := 0, closed := false, receiveclosed := false
        items := Option.none, remoteerrors := [], inChannels := true
        cbEntry := some Option.none, sent := [], cbLog := [] }) =
      RcvOut.ioErr ∧
    setcallback (some 9) (runOps [Op.localReceive 4]
      { id := 0, closed := false, receiveclosed := false
        items := Option.none, remoteerrors := [], inChannels := true
        cbEntry := some Option.none, sent := [], cbLog := [] }) =
      Except.error () ∧
    stepOp (Op.setcb (some 9)) (runOps [Op.localReceive 4]
      { id := 0, closed := false, receiveclosed := false
        items := Option.none, remoteerrors := [], inChannels := true
        cbEntry := some Option.none, sent := [], cbLog := [] }) =
      runOps [Op.localReceive 4]
        { id := 0, closed := false, receiveclosed := false
          items := Option.none, remoteerrors := [], inChannels := true
          cbEntry := some Option.none, sent := [], cbLog := [] } :=
  ⟨rfl,
   (callback_mode_exclusive Option.none (some 9) (initChan 0) _
      [Op.localReceive 4] rfl).1,
   (callback_mode_exclusive Option.none (some 9) (initChan 0) _
      [Op.localReceive 4] rfl).2.1,
   (callback_mode_exclusive Option.none (some 9) (initChan 0) _
      [Op.localReceive 4] rfl).2.2⟩

/-! ## C9: the endmarker is delivered exactly once -/

theorem emCount_endm (e : Nat) : emCount [CbEvent.endm e] = 1 := rfl

theorem drainLoop_endmark (e : Nat) (q : List QItem) :
    ∀ s : ChanState, QItem.endmark ∈ q →
      (drainLoop (some e) q s).cbEntry = s.cbEntry ∧
      emCount (drainLoop (some e) q s).cbLog = emCount s.cbLog + 1 := by
  induction q with
  | nil => intro s h; simp at h
  | cons x rest ih =>
      intro s h
      cases x with
      | endmark =>
          refine ⟨rfl, ?_⟩
          show emCount (s.cbLog ++ emDelivery (some e)) = _
          rw [emCount_append]
          rfl
      | data v =>
          have hmem : QItem.endmark ∈ rest := by simpa using h
          have hrec := ih { s with cbLog := s.cbLog ++ [CbEvent.data v] } hmem
          refine ⟨hrec.1, ?_⟩
          rw [show drainLoop (some e) (QItem.data v :: rest) s =
              drainLoop (some e) rest
                { s with cbLog := s.cbLog ++ [CbEvent.data v] } from rfl,
            hrec.2]
          show emCount (s.cbLog ++ [CbEvent.data v]) + 1 = _
          rw [emCount_append, emCount_data]

theorem drainLoop_no_endmark (em : Option Nat) (q : List QItem) :
    ∀ s : ChanState, QItem.endmark ∉ q → s.closed = false →
      s.receiveclosed = false →
      (drainLoop em q s).cbEntry = some em ∧
      emCount (drainLoop em q s).cbLog = emCount s.cbLog := by
  induction q with
  | nil =>
      intro s h hc hr
      simp [drainLoop, hc, hr]
  | cons x rest ih =>
      intro s h hc hr
      cases x with
      | endmark => simp at h
      | data v =>
          have hmem : QItem.endmark ∉ rest :=
            fun hm => h (List.mem_cons_of_mem _ hm)
          have hrec := ih { s with cbLog := s.cbLog ++ [CbEvent.data v] }
            hmem hc hr
          refine ⟨hrec.1, ?_⟩
          rw [show drainLoop em (QItem.data v :: rest) s =
              drainLoop em rest
                { s with cbLog := s.cbLog ++ [CbEvent.data v] } from rfl,
            hrec.2]
          show emCount (s.cbLog ++ [CbEvent.data v]) = _
          rw [emCount_append, emCount_data]
          rfl

theorem invPre_init (cid : Nat) : InvPre (initChan cid) := by
  refine ⟨by simp [initChan], ?_, ?_⟩
  · intro q hq hrc
    simp [initChan] at hrc
  · intro q hq
    exact ⟨rfl, rfl⟩

theorem invPre_of_proj {s t : ChanState} (h : InvPre s)
    (pc : t.closed = s.closed) (pr : t.receiveclosed = s.receiveclosed)
    (pi : t.items = s.items) (pe : t.cbEntry = s.cbEntry)
    (pl : t.cbLog = s.cbLog) : InvPre t := by
  obtain ⟨h1, h2, h3⟩ := h
  refine ⟨?_, ?_, ?_⟩
  · rw [pc, pr]; exact h1
  · intro q hq hrc
    rw [pi] at hq
    rw [pr] at hrc
    exact h2 q hq hrc
  · intro q hq
    rw [pi] at hq
    rw [pe, pl]
    exact h3 q hq

theorem invPre_closedLike {s t : ChanState} (h : InvPre s)
    (pr : t.receiveclosed = true) (pi : t.items = appendEnd s.items)
    (pe : t.cbEntry = Option.none)
    (pl : emCount t.cbLog = emCount s.cbLog + cbWeight s.cbEntry) :
    InvPre t := by
  obtain ⟨h1, h2, h3⟩ := h
  refine ⟨fun _ => pr, ?_, ?_⟩
  · intro q hq _
    rw [pi] at hq
    cases hi : s.items with
    | none => rw [hi] at hq; simp [appendEnd] at hq
    | some q0 =>
        rw [hi] at hq
        simp only [appendEnd, Option.some.injEq] at hq
        rw [← hq]
        simp
  · intro q hq
    rw [pi] at hq
    cases hi : s.items with
    | none => rw [hi] at hq; simp [appendEnd] at hq
    | some q0 =>
        obtain ⟨hcb, hem⟩ := h3 q0 hi
        refine ⟨pe, ?_⟩
        rw [pl, hcb, hem]
        rfl

theorem invPre_nLO (s : ChanState) (h : InvPre s) :
    InvPre (noLongerOpened s) := by
  obtain ⟨h1, h2, h3⟩ := h
  refine ⟨?_, ?_, ?_⟩
  · intro hcl
    rw [noLongerOpened_closed] at hcl
    rw [noLongerOpened_receiveclosed]
    exact h1 hcl
  · intro q hq hrc
    rw [noLongerOpened_items] at hq
    rw [noLongerOpened_receiveclosed] at hrc
    exact h2 q hq hrc
  · intro q hq
    rw [noLongerOpened_items] at hq
    obtain ⟨hcb, hem⟩ := h3 q hq
    refine ⟨noLongerOpened_cbEntry s, ?_⟩
    rw [noLongerOpened_emCount, hcb, hem]
    rfl

theorem invPre_step (op : Op) (s : ChanState) (h : InvPre s) :
    InvPre (stepOp op s) := by
  cases op with
  | setcb em =>
      cases hi : s.items with
      | none =>
          rw [show stepOp (Op.setcb em) s = s from by
            simp [stepOp, setcallback, hi]]
          exact h
      | some q =>
          rw [show stepOp (Op.setcb em) s =
              drainLoop em q { s with items := Option.none } from by
            simp [stepOp, setcallback, hi]]
          obtain ⟨pc, pr, pi⟩ :=
            drainLoop_fields em q { s with items := Option.none }
          refine ⟨?_, ?_, ?_⟩
          · rw [pc, pr]
            exact h.1
          · intro q' hq'
            rw [pi] at hq'
            simp at hq'
          · intro q' hq'
            rw [pi] at hq'
            simp at hq'
  | close err =>
      show InvPre (closeCh err s)
      by_cases hc : s.closed = true
      · rw [show closeCh err s = s from by simp [closeCh, hc]]
        exact h
      · rw [show closeCh err s = noLongerOpened
            { s with sent := s.sent ++ [closeMsg err s.id]
                     remoteerrors := s.remoteerrors ++ closeRemote err
                     closed := true, receiveclosed := true
                     items := appendEnd s.items } from by
          simp [closeCh, hc]]
        exact invPre_closedLike h rfl rfl (noLongerOpened_cbEntry _)
          (noLongerOpened_emCount _)
  | localClose rerr so =>
      show InvPre (localClose rerr so s)
      by_cases hin : s.inChannels = true
      · rw [show localClose rerr so s = noLongerOpened
            { s with remoteerrors := s.remoteerrors ++ rerr.toList
                     closed := (if so then s.closed else true)
                     receiveclosed := true
                     items := appendEnd s.items } from by
          simp [localClose, hin]]
        exact invPre_closedLike h rfl rfl (noLongerOpened_cbEntry _)
          (noLongerOpened_emCount _)
      · have hif : s.inChannels = false := by simpa using hin
        rw [show localClose rerr so s = noLongerOpened s from by
          simp [localClose, hif]]
        exact invPre_nLO s h
  | localReceive d =>
      show InvPre (localReceive d s)
      cases hcb : s.cbEntry with
      | some em =>
          rw [show localReceive d s =
              { s with cbLog := s.cbLog ++ [CbEvent.data d] } from by
            simp [localReceive, hcb]]
          refine ⟨h.1, h.2.1, ?_⟩
          intro q hq
          obtain ⟨hc3, _⟩ := h.2.2 q hq
          rw [hcb] at hc3
          exact absurd hc3 (by simp)
      | none =>
          by_cases hin : s.inChannels = true
          · cases hi : s.items with
            | none =>
                rw [show localReceive d s = s from by
                  simp [localReceive, hcb, hin, hi]]
                exact h
            | some q0 =>
                rw [show localReceive d s =
                    { s with items := some (q0 ++ [QItem.data d]) } from by
                  simp [localReceive, hcb, hin, hi]]
                refine ⟨h.1, ?_, ?_⟩
                · intro q hq hrc
                  have hq2 : q0 ++ [QItem.data d] = q := by
                    simpa using hq
                  subst hq2
                  exact List.mem_append_left _ (h.2.1 q0 hi hrc)
                · intro q hq
                  obtain ⟨hc3, hem⟩ := h.2.2 q0 hi
                  exact ⟨hc3, hem⟩
          · have hif : s.inChannels = false := by simpa using hin
            rw [show localReceive d s = s from by
              simp [localReceive, hcb, hif]]
            exact h
  | recv =>
      show InvPre (recvStep s)
      cases hi : s.items with
      | none =>
          rw [show recvStep s = s from by simp [recvStep, hi]]
          exact h
      | some q0 =>
          cases q0 with
          | nil =>
              rw [show recvStep s = s from by simp [recvStep, hi]]
              exact h
          | cons x rest =>
              cases x with
              | endmark =>
                  rw [show recvStep s =
                      { s with items := some (rest ++ [QItem.endmark])
                               remoteerrors := s.remoteerrors.tail } from by
                    simp [recvStep, hi]]
                  refine ⟨h.1, ?_, ?_⟩
                  · intro q hq hrc
                    have hq2 : rest ++ [QItem.endmark] = q := by
                      simpa using hq
                    subst hq2
                    simp
                  · intro q hq
                    obtain ⟨hc3, hem⟩ := h.2.2 (QItem.endmark :: rest) hi
                    exact ⟨hc3, hem⟩
              | data v =>
                  rw [show recvStep s = { s with items := some rest } from by
                    simp [recvStep, hi]]
                  refine ⟨h.1, ?_, ?_⟩
                  · intro q hq hrc
                    have hq2 : rest = q := by simpa using hq
                    subst hq2
                    have hmem := h.2.1 (QItem.data v :: rest) hi hrc
                    simpa using hmem
                  · intro q hq
                    obtain ⟨hc3, hem⟩ := h.2.2 (QItem.data v :: rest) hi
                    exact ⟨hc3, hem⟩
  | send it =>
      by_cases hc : s.closed = true
      · rw [show stepOp (Op.send it) s = s from by
          simp [stepOp, sendCh, hc]]
        exact h
      · cases it with
        | channel cid =>
            refine invPre_of_proj h ?_ ?_ ?_ ?_ ?_ <;>
              simp [stepOp, sendCh, hc]
        | value v =>
            refine invPre_of_proj h ?_ ?_ ?_ ?_ ?_ <;>
              simp [stepOp, sendCh, hc]

theorem invPre_run (ops : List Op) :
    ∀ s : ChanState, InvPre s → InvPre (runOps ops s) := by
  induction ops with
  | nil => intro s h; exact h
  | cons op rest ih =>
      intro s h
      rw [runOps_cons]
      exact ih _ (invPre_step op s h)

theorem setcb_establishes_invPost (e : Nat) (s s2 : ChanState)
    (h : InvPre s) (hok : setcallback (some e) s = Except.ok s2) :
    InvPost s2 := by
  unfold setcallback at hok
  cases hi : s.items with
  | none => rw [hi] at hok; exact absurd hok (by simp)
  | some q =>
      rw [hi] at hok
      have hs2 : s2 = drainLoop (some e) q { s with items := Option.none } :=
        (Except.ok.inj hok).symm
      obtain ⟨h1, h2, h3⟩ := h
      obtain ⟨hcb, hem⟩ := h3 q hi
      obtain ⟨pc, pr, pi⟩ :=
        drainLoop_fields (some e) q { s with items := Option.none }
      subst hs2
      by_cases hmem : QItem.endmark ∈ q
      · obtain ⟨pe, pl⟩ :=
          drainLoop_endmark e q { s with items := Option.none } hmem
        refine ⟨pi, ?_, ?_, ?_⟩
        · rw [pc, pr]
          exact h1
        · intro hne
          rw [pe] at hne
          exact absurd hcb hne
        · rw [pl, pe]
          show emCount s.cbLog + 1 + cbWeight s.cbEntry = 1
          rw [hcb, hem]
          rfl
      · have hrcf : s.receiveclosed = false := by
          cases hr : s.receiveclosed with
          | false => rfl
          | true => exact absurd (h2 q hi hr) hmem
        have hcf : s.closed = false := by
          cases hcl : s.closed with
          | false => rfl
          | true => rw [h1 hcl] at hrcf; exact absurd hrcf (by simp)
        obtain ⟨pe, pl⟩ := drainLoop_no_endmark (some e) q
          { s with items := Option.none } hmem hcf hrcf
        refine ⟨pi, ?_, ?_, ?_⟩
        · intro hcl
          rw [pc] at hcl
          rw [pr]
          exact h1 hcl
        · intro _
          rw [pr]
          exact hrcf
        · rw [pl, pe]
          show emCount s.cbLog + cbWeight (some (some e)) = 1
          rw [hem]
          rfl

theorem invPost_of_proj {s t : ChanState} (h : InvPost s)
    (pc : t.closed = s.closed) (pr : t.receiveclosed = s.receiveclosed)
    (pi : t.items = s.items) (pe : t.cbEntry = s.cbEntry)
    (pl : t.cbLog = s.cbLog) : InvPost t := by
  obtain ⟨hitems, hcr, hcbrc, hsum⟩ := h
  refine ⟨?_, ?_, ?_, ?_⟩
  · rw [pi]; exact hitems
  · intro hcl; rw [pc] at hcl; rw [pr]; exact hcr hcl
  · intro hne; rw [pe] at hne; rw [pr]; exact hcbrc hne
  · rw [pl, pe]; exact hsum

theorem invPost_closedLike {s t : ChanState} (h : InvPost s)
    (pr : t.receiveclosed = true) (pi : t.items = appendEnd s.items)
    (pe : t.cbEntry = Option.none)
    (pl : emCount t.cbLog = emCount s.cbLog + cbWeight s.cbEntry) :
    InvPost t := by
  obtain ⟨hitems, hcr, hcbrc, hsum⟩ := h
  refine ⟨?_, fun _ => pr, ?_, ?_⟩
  · rw [pi, hitems]
    rfl
  · intro hne
    rw [pe] at hne
    exact absurd rfl hne
  · rw [pl, pe]
    show emCount s.cbLog + cbWeight s.cbEntry + cbWeight Option.none = 1
    rw [hsum]
    rfl

theorem invPost_nLO (s : ChanState) (h : InvPost s) :
    InvPost (noLongerOpened s) := by
  obtain ⟨hitems, hcr, hcbrc, hsum⟩ := h
  refine ⟨?_, ?_, ?_, ?_⟩
  · rw [noLongerOpened_items]; exact hitems
  · intro hcl
    rw [noLongerOpened_closed] at hcl
    rw [noLongerOpened_receiveclosed]
    exact hcr hcl
  · intro hne
    rw [noLongerOpened_cbEntry] at hne
    exact absurd rfl hne
  · rw [noLongerOpened_emCount, noLongerOpened_cbEntry, hsum]
    rfl

theorem invPost_step (op : Op) (s : ChanState) (h : InvPost s) :
    InvPost (stepOp op s) := by
  cases op with
  | setcb em =>
      rw [show stepOp (Op.setcb em) s = s from by
        simp [stepOp, setcallback, h.1]]
      exact h
  | close err =>
      show InvPost (closeCh err s)
      by_cases hc : s.closed = true
      · rw [show closeCh err s = s from by simp [closeCh, hc]]
        exact h
      · rw [show closeCh err s = noLongerOpened
            { s with sent := s.sent ++ [closeMsg err s.id]
                     remoteerrors := s.remoteerrors ++ closeRemote err
                     closed := true, receiveclosed := true
                     items := appendEnd s.items } from by
          simp [closeCh, hc]]
        exact invPost_closedLike h rfl rfl (noLongerOpened_cbEntry _)
          (noLongerOpened_emCount _)
  | localClose rerr so =>
      show InvPost (localClose rerr so s)
      by_cases hin : s.inChannels = true
      · rw [show localClose rerr so s = noLongerOpened
            { s with remoteerrors := s.remoteerrors ++ rerr.toList
                     closed := (if so then s.closed else true)
                     receiveclosed := true
                     items := appendEnd s.items } from by
          simp [localClose, hin]]
        exact invPost_closedLike h rfl rfl (noLongerOpened_cbEntry _)
          (noLongerOpened_emCount _)
      · have hif : s.inChannels = false := by simpa using hin
        rw [show localClose rerr so s = noLongerOpened s from by
          simp [localClose, hif]]
        exact invPost_nLO s h
  | localReceive d =>
      show InvPost (localReceive d s)
      cases hcb : s.cbEntry with
      | some em =>
          rw [show localReceive d s =
              { s with cbLog := s.cbLog ++ [CbEvent.data d] } from by
            simp [localReceive, hcb]]
          obtain ⟨hitems, hcr, hcbrc, hsum⟩ := h
          refine ⟨hitems, hcr, ?_, ?_⟩
          · intro _
            exact hcbrc (by rw [hcb]; simp)
          · show emCount (s.cbLog ++ [CbEvent.data d]) + cbWeight s.cbEntry = 1
            rw [emCount_append, emCount_data]
            exact hsum
      | none =>
          rw [show localReceive d s = s from by
            cases hin : s.inChannels <;>
              simp [localReceive, hcb, hin, h.1]]
          exact h
  | recv =>
      rw [show stepOp Op.recv s = s from by simp [stepOp, recvStep, h.1]]
      exact h
  | send it =>
      by_cases hc : s.closed = true
      · rw [show stepOp (Op.send it) s = s from by
          simp [stepOp, sendCh, hc]]
        exact h
      · cases it with
        | channel cid =>
            refine invPost_of_proj h ?_ ?_ ?_ ?_ ?_ <;>
              simp [stepOp, sendCh, hc]
        | value v =>
            refine invPost_of_proj h ?_ ?_ ?_ ?_ ?_ <;>
              simp [stepOp, sendCh, hc]

theorem invPost_run (ops : List Op) :
    ∀ s : ChanState, InvPost s → InvPost (runOps ops s) := by
  induction ops with
  | nil => intro s h; exact h
  | cons op rest ih =>
      intro s h
      rw [runOps_cons]
      exact ih _ (invPost_step op s h)

/-- C9: endmarker-once.  Starting from a fresh channel, run any
operations, then install a callback with an explicit endmarker
(successfully); after any further operations, as soon as the channel
has receive-closed (close, remote close, or a close racing the
`setcallback` drain), the callback has been handed the endmarker
exactly once — never zero times and never twice. -/
theorem endmarker_once (cid : Nat) (pre post : List Op) (e : Nat)
    (s2 : ChanState)
    (hok : setcallback (some e) (runOps pre (initChan cid)) =
      Except.ok s2)
    (hclosed : (runOps post s2).receiveclosed = true) :
    emCount (runOps post s2).cbLog = 1 := by
  have hpre : InvPre (runOps pre (initChan cid)) :=
    invPre_run pre (initChan cid) (invPre_init cid)
  have hpost : InvPost s2 :=
    setcb_establishes_invPost e _ s2 hpre hok
  have hfin : InvPost (runOps post s2) := invPost_run post s2 hpost
  obtain ⟨_, _, hcbrc, hsum⟩ := hfin
  cases hcb : (runOps post s2).cbEntry with
  | none =>
      rw [hcb] at hsum
      simpa [cbWeight] using hsum
  | some em =>
      have hrc := hcbrc (by rw [hcb]; simp)
      rw [hrc] at hclosed
      exact absurd hclosed (by simp)

theorem endmarker_once_witness :
    setcallback (some 5) (runOps [] (initChan 7)) =
      Except.ok { id := 7, closed := false, receiveclosed := false
                  items := Option.none, remoteerrors := []
                  inChannels := true, cbEntry := some (some 5)
                  sent := [], cbLog := [] } ∧
    (runOps [Op.close Option.none]
      { id := 7, closed := false, receiveclosed := false
        items := Option.none, remoteerrors := [], inChannels := true
        cbEntry := some (some 5), sent := [], cbLog := [] }).receiveclosed
      = true ∧
    emCount (runOps [Op.close Option.none]
      { id := 7, closed := false, receiveclosed := false
        items := Option.none, remoteerrors := [], inChannels := true
        cbEntry := some (some 5), sent := [], cbLog := [] }).cbLog = 1 :=
  ⟨rfl, by decide,
   endmarker_once 7 [] [Op.close Option.none] 5 _ rfl (by decide)⟩

end Execnet
